import Mathlib

/-!
Shallow embedding of the live telemetry aggregation and model-evaluation
shaping pipeline of the MBDAaaS dashboard frontend
(`src/frontend/src/App.tsx`, `src/frontend/src/components/ThreatCharts.tsx`,
`src/frontend/src/components/ROCCurve.tsx`, `src/frontend/src/services/api.ts`),
with theorems checking the specification's claims about it.

JS numbers are modelled as `Rat` (only comparisons and copying occur in the
embedded code), JS insertion-ordered string-keyed objects as association
lists `List (String × Nat)`, fallible `fetch`/JSON steps as `Except`/`Option`
values supplied per call, and React `useState` state as explicit record
passing.
-/

namespace MBDAaaS

/-- Indexed map mirroring JS `array.map((x, idx) => f(idx, x))`, with an
explicit start index so that induction is straightforward. -/
def mapWithIndex (f : Nat → α → β) : Nat → List α → List β
  | _, [] => []
  | i, a :: l => f i a :: mapWithIndex f (i + 1) l

theorem length_mapWithIndex (f : Nat → α → β) (s : Nat) (l : List α) :
    (mapWithIndex f s l).length = l.length := by
  induction l generalizing s with
  | nil => rfl
  | cons a l ih => simp [mapWithIndex, ih]

theorem getElem?_mapWithIndex (f : Nat → α → β) (s : Nat) (l : List α) (i : Nat) :
    (mapWithIndex f s l)[i]? = (l[i]?).map (f (s + i)) := by
  induction l generalizing s i with
  | nil => simp [mapWithIndex]
  | cons a l ih =>
    cases i with
    | zero => simp [mapWithIndex]
    | succ j =>
      simp only [mapWithIndex, List.getElem?_cons_succ, ih]
      have : s + 1 + j = s + (j + 1) := by omega
      rw [this]

/-! ## Data model (`LiveEvents.tsx` `Event` interface, `App.tsx` interfaces) -/

/-- The `{prediction, confidence}` payload returned by `POST /api/predict`
(`ml_prediction` field of the `Event` interface in `LiveEvents.tsx`). -/
structure MLPrediction where
  prediction : String
  confidence : Rat
deriving DecidableEq

/-- The `Event` interface of `LiveEvents.tsx`. -/
structure Event where
  timestamp : String
  user_id : String
  action : String
  table_name : String
  is_suspicious : Bool
  ml_prediction : Option MLPrediction := none
deriving DecidableEq

/-- The `TestData` interface of `App.tsx`, inner `data` record. -/
structure TestStats where
  total_events : Nat
  anomalies : Nat
  accuracy : Rat
deriving DecidableEq

/-- The `TestData` interface of `App.tsx` (payload of `GET /api/test`). -/
structure TestData where
  message : String
  data : TestStats
deriving DecidableEq

/-- The `HealthData` interface of `App.tsx` (payload of `GET /health`);
`api` is the single field of the nested `services` record. -/
structure HealthData where
  status : String
  api : String
deriving DecidableEq

/-- The `NosyAdminData` interface of `App.tsx` (payload of
`GET /api/detect/nosy-admin`); the JS string-keyed `Record` is modelled as
an insertion-ordered association list. -/
structure NosyAdminData where
  nosy_admins : List (String × Nat)
  threshold : Nat
  total_admin_reads : Nat
deriving DecidableEq

/-! ## EventEnricher (`LiveEvents.tsx`, `fetchEventsWithPredictions`) -/

/-- The per-event prediction fan-out of `fetchEventsWithPredictions` in
`LiveEvents.tsx`: `Promise.all(rawEvents.map(async event => ...))`.
The outcome of the `i`-th `POST /api/predict` request is supplied by
`predict i` (`none` = that request or its JSON decoding threw, caught by
the inner `catch` which returns the bare event; `some p` = it resolved
with payload `p`, merged via `{ ...event, ml_prediction: prediction }`). -/
def fetchEventsWithPredictions (rawEvents : List Event)
    (predict : Nat → Option MLPrediction) : List Event :=
  mapWithIndex (fun i event =>
    match predict i with
    | some p => { event with ml_prediction := some p }
    | none => event) 0 rawEvents

/-! ## MetricsAggregator (`ThreatCharts.tsx`) -/

/-- One element of the `timeline` chart series in `ThreatCharts.tsx`. -/
structure TimelinePoint where
  time : String
  threats : Nat
  normal : Nat
deriving DecidableEq

/-- `processTimeline` from `ThreatCharts.tsx`:
`events.map((event, idx) => ({time: ..., threats: ..., normal: ...}))`. -/
def processTimeline (events : List Event) : List TimelinePoint :=
  mapWithIndex (fun idx event =>
    { time := "T" ++ toString (idx + 1)
      threats := if event.is_suspicious then 1 else 0
      normal := if event.is_suspicious then 0 else 1 }) 0 events

/-- One element of the `userActivity` chart series in `ThreatCharts.tsx`. -/
structure UserActivityPoint where
  user : String
  actions : Nat
deriving DecidableEq

/-- One step of building the JS count object:
`counts[k] = (counts[k] || 0) + 1` on an insertion-ordered string-keyed
object — increment the existing entry in place, or append a fresh `(k, 1)`
entry at the end. -/
def bump : List (String × Nat) → String → List (String × Nat)
  | [], k => [(k, 1)]
  | (k', v) :: rest, k =>
    if k' = k then (k', v + 1) :: rest else (k', v) :: bump rest k

/-- The `forEach` counting loop shared by `processUserActivity` and
`processActionDistribution` in `ThreatCharts.tsx`, applied to the projected
key of each event. -/
def countsBy (keys : List String) : List (String × Nat) :=
  keys.foldl bump []

/-- `processUserActivity` from `ThreatCharts.tsx`: count events per
`user_id`, then `Object.entries(userCounts).slice(0, 5).map(([user,
actions]) => ({user: user.slice(0, 15), actions}))`. -/
def processUserActivity (events : List Event) : List UserActivityPoint :=
  ((countsBy (events.map Event.user_id)).take 5).map
    (fun p => { user := p.1.take 15, actions := p.2 })

/-- One element of the `actionDistribution` / `attackTypes` chart series in
`ThreatCharts.tsx`. -/
structure CategoryPoint where
  name : String
  value : Nat
deriving DecidableEq

/-- `processActionDistribution` from `ThreatCharts.tsx`. -/
def processActionDistribution (events : List Event) : List CategoryPoint :=
  (countsBy (events.map Event.action)).map (fun p => { name := p.1, value := p.2 })

/-- The payload of `GET /api/live-events` as read by `ThreatCharts.tsx` and
`LiveEvents.tsx`; fields that the code guards with `|| fallback` are
`Option`s. -/
structure LiveEventsPayload where
  events : Option (List Event)
  attack_types : Option (List (String × Nat))
  total_events : Option Nat
  suspicious_count : Option Nat
deriving DecidableEq

/-- `processAttackTypes` from `ThreatCharts.tsx`:
`Object.entries(data.attack_types || {}).map(([name, value]) => ...)`. -/
def processAttackTypes (data : LiveEventsPayload) : List CategoryPoint :=
  (data.attack_types.getD []).map (fun p => { name := p.1, value := p.2 })

/-- The `ChartData` interface of `ThreatCharts.tsx`. -/
structure ChartData where
  timeline : List TimelinePoint
  userActivity : List UserActivityPoint
  actionDistribution : List CategoryPoint
  attackTypes : List CategoryPoint
deriving DecidableEq

/-- The body of the `try` block of `fetchChartData` in `ThreatCharts.tsx`
after the payload has been fetched and decoded: all four chart series are
rebuilt from the new payload alone (`const events = data.events || []`). -/
def deriveCharts (data : LiveEventsPayload) : ChartData :=
  let events := data.events.getD []
  { timeline := processTimeline events
    userActivity := processUserActivity events
    actionDistribution := processActionDistribution events
    attackTypes := processAttackTypes data }

/-- One cycle of `fetchChartData` in `ThreatCharts.tsx` acting on the
`chartData` React state: on success `setChartData({...})` replaces the
state with the freshly derived snapshot; on any thrown error the `catch`
only logs, leaving the state untouched. -/
def fetchChartData (st : Option ChartData) :
    Except Unit LiveEventsPayload → Option ChartData
  | .ok data => some (deriveCharts data)
  | .error _ => st

/-! ## ModelEvaluationShaper (`ROCCurve.tsx`) -/

/-- One point of the ROC chart series built in `ROCCurve.tsx`. -/
structure ROCPoint where
  fpr : Rat
  tpr : Rat
  threshold : Rat
deriving DecidableEq

/-- The `ROCData` interface of `ROCCurve.tsx` (payload of
`GET /api/model-roc`), restricted to the fields the shaping logic reads. -/
structure ROCData where
  fpr : List Rat
  tpr : List Rat
  thresholds : List Rat
  auc : Rat
deriving DecidableEq

/-- The `chartData` shaping in `ROCCurve.tsx`:
`rocData.fpr.map((fpr, idx) => ({fpr, tpr: rocData.tpr[idx], threshold:
rocData.thresholds[idx]}))`. A JS out-of-range index yields `undefined`;
under the data-model invariant that the three arrays have equal length it
is never taken, and it is rendered here by the (never-reached) default of
`getD`. -/
def chartData (d : ROCData) : List ROCPoint :=
  mapWithIndex (fun idx f =>
    { fpr := f, tpr := d.tpr.getD idx 0, threshold := d.thresholds.getD idx 0 })
    0 d.fpr

/-- One point of the fixed reference diagonal in `ROCCurve.tsx`. -/
structure RefPoint where
  fpr : Rat
  tpr : Rat
deriving DecidableEq

/-- The `referenceData` constant of `ROCCurve.tsx` (random-classifier
diagonal). -/
def referenceData : List RefPoint :=
  [{ fpr := 0, tpr := 0 }, { fpr := 1, tpr := 1 }]

/-- `getAUCColor` from `ROCCurve.tsx`. -/
def getAUCColor (auc : Rat) : String :=
  if auc ≥ 0.95 then "green"
  else if auc ≥ 0.90 then "blue"
  else if auc ≥ 0.80 then "orange"
  else "red"

/-! ## AlertEvaluator and Dashboard summary cycle (`App.tsx`) -/

/-- Line 118 of `App.tsx`:
`nosyAdmins && Object.keys(nosyAdmins.nosy_admins || {}).length > 0`,
the gate for showing the nosy-admin security alert. -/
def hasNosyAdmins (nosyAdmins : Option NosyAdminData) : Bool :=
  match nosyAdmins with
  | none => false
  | some d => decide (0 < (d.nosy_admins.map Prod.fst).length)

/-- The React state of the `Dashboard` component in `App.tsx`
(`lastUpdate`, a wall-clock timestamp, is presentation-only and omitted). -/
structure DashboardState where
  testData : Option TestData
  healthData : Option HealthData
  nosyAdmins : Option NosyAdminData
  loading : Bool
  error : Option String
deriving DecidableEq

/-- The `useState` initial values of `Dashboard` in `App.tsx`. -/
def initialDashboardState : DashboardState :=
  { testData := none, healthData := none, nosyAdmins := none
    loading := true, error := none }

/-- One cycle of `fetchData` in `App.tsx`. `Promise.all` of the three
primary fetches resolves only when all three resolve; if any rejects the
`catch` block runs, which sets `error` and `loading` but touches no data
field. On success all three data fields are replaced by the new payloads;
`error` is not written on this path. -/
def fetchData (st : DashboardState) (test : Except Unit TestData)
    (health : Except Unit HealthData) (nosyAdmin : Except Unit NosyAdminData) :
    DashboardState :=
  match test, health, nosyAdmin with
  | .ok t, .ok h, .ok n =>
    { st with testData := some t, healthData := some h, nosyAdmins := some n
              loading := false }
  | _, _, _ =>
    { st with error := some "Failed to connect to backend", loading := false }

/-- The three top-level render branches of `Dashboard` in `App.tsx`:
`if (loading) ...` spinner, `else if (error) ...` connection-error box
with manual reload button, else the ready dashboard. -/
inductive DashboardView where
  | initializing
  | connectionError
  | ready
deriving DecidableEq

/-- The branch selection at the top of `Dashboard`'s render in `App.tsx`. -/
def renderDashboard (st : DashboardState) : DashboardView :=
  if st.loading then .initializing
  else if st.error.isSome then .connectionError
  else .ready

/-! ## Specification-side definitions (for comparison with the code) -/

/-- The spec's data-model definition of the alert state (spec §3):
`AlertState = exists u: AdminReadCounter[u] > threshold`. -/
def alertStateSpec (d : NosyAdminData) : Prop :=
  ∃ p ∈ d.nosy_admins, d.threshold < p.2

instance (d : NosyAdminData) : Decidable (alertStateSpec d) :=
  List.decidableBEx _ d.nosy_admins

/-- Distinct keys in first-encounter order (spec §4.4: "the first 5
distinct users encountered"). -/
def firstSeen : List String → List String
  | [] => []
  | a :: l => a :: (firstSeen l).filter (fun b => b ≠ a)

/-- The user-activity aggregation as the spec words it: the first 5
distinct `user_id`s in encounter order, each paired with the total count
of that user's events in the whole batch, username truncated to 15
characters. -/
def specUserActivity (events : List Event) : List UserActivityPoint :=
  ((firstSeen (events.map Event.user_id)).take 5).map
    (fun u => { user := u.take 15, actions := (events.map Event.user_id).count u })

/-! ## The counting fold computes first-seen keys with batch counts -/

theorem bump_of_not_mem (m : List (String × Nat)) (a : String)
    (h : a ∉ m.map Prod.fst) : bump m a = m ++ [(a, 1)] := by
  induction m with
  | nil => rfl
  | cons p rest ih =>
    obtain ⟨k, v⟩ := p
    simp only [List.map_cons, List.mem_cons] at h
    push_neg at h
    simp only [bump, List.cons_append]
    rw [if_neg (fun hk => h.1 hk.symm), ih h.2]

theorem bump_map_of_mem (ks : List String) (c : String → Nat) (a : String)
    (hnd : ks.Nodup) (ha : a ∈ ks) :
    bump (ks.map (fun k => (k, c k))) a =
      ks.map (fun k => (k, if k = a then c k + 1 else c k)) := by
  induction ks with
  | nil => cases ha
  | cons k ks ih =>
    rcases List.nodup_cons.mp hnd with ⟨hk, hnd'⟩
    by_cases hka : k = a
    · subst hka
      simp only [List.map_cons, bump, ite_true, eq_self_iff_true, if_true]
      congr 1
      refine List.map_congr_left fun b hb => ?_
      rw [if_neg (fun hbk : b = k => hk (hbk ▸ hb))]
    · have ha' : a ∈ ks := by
        rcases List.mem_cons.mp ha with h | h
        · exact absurd h.symm hka
        · exact h
      simp only [List.map_cons, bump]
      rw [if_neg hka, ih hnd' ha', if_neg hka]

theorem foldl_bump_eq (l : List String) :
    ∀ (ks : List String) (c : String → Nat), ks.Nodup →
    List.foldl bump (ks.map (fun k => (k, c k))) l =
      (ks ++ (firstSeen l).filter (fun b => b ∉ ks)).map
        (fun k => (k, (if k ∈ ks then c k else 0) + l.count k)) := by
  induction l with
  | nil =>
    intro ks c _
    simp only [List.foldl_nil, firstSeen, List.filter_nil, List.append_nil,
      List.count_nil, Nat.add_zero]
    exact (List.map_congr_left fun k hk => by simp [hk]).symm
  | cons a l ih =>
    intro ks c hnd
    simp only [List.foldl_cons]
    by_cases ha : a ∈ ks
    · rw [bump_map_of_mem ks c a hnd ha, ih ks _ hnd]
      have hkeys : (firstSeen (a :: l)).filter (fun b => b ∉ ks) =
          (firstSeen l).filter (fun b => b ∉ ks) := by
        simp only [firstSeen, List.filter_cons]
        rw [if_neg (by simpa using ha), List.filter_filter]
        refine List.filter_congr fun b _ => ?_
        by_cases hbks : b ∈ ks
        · simp [hbks]
        · have hba : b ≠ a := fun h => hbks (h ▸ ha)
          simp [hbks, hba]
      rw [hkeys]
      refine List.map_congr_left fun k hk => ?_
      rcases List.mem_append.mp hk with hks | hflt
      · by_cases hka : k = a
        · subst hka
          simp only [hks, if_pos, if_true, List.count_cons, beq_self_eq_true,
            if_pos rfl, reduceIte]
          simp [hks]
          omega
        · simp only [List.count_cons]
          have : (a == k) = false := by simpa using Ne.symm hka
          simp [hks, hka, this]
      · have hkks : k ∉ ks := by simpa using (List.mem_filter.mp hflt).2
        have hka : k ≠ a := fun h => hkks (h ▸ ha)
        have : (a == k) = false := by simpa using Ne.symm hka
        simp [hkks, List.count_cons, this]
    · have hnd' : (ks ++ [a]).Nodup := by
        rw [List.nodup_append]
        refine ⟨hnd, List.nodup_singleton a, ?_⟩
        intro x hx hx'
        rw [List.mem_singleton] at hx'
        exact ha (hx' ▸ hx)
      have hmap : bump (ks.map (fun k => (k, c k))) a =
          (ks ++ [a]).map (fun k => (k, if k = a then 1 else c k)) := by
        rw [bump_of_not_mem _ _ (by simpa using ha), List.map_append]
        congr 1
        · refine List.map_congr_left fun k hk => ?_
          rw [if_neg (fun h : k = a => ha (h ▸ hk))]
        · simp
      rw [hmap, ih (ks ++ [a]) _ hnd']
      have hkeys : (firstSeen (a :: l)).filter (fun b => b ∉ ks) =
          a :: (firstSeen l).filter (fun b => b ∉ ks ++ [a]) := by
        simp only [firstSeen, List.filter_cons]
        rw [if_pos (by simpa using ha), List.filter_filter]
        congr 1
        refine List.filter_congr fun b _ => ?_
        by_cases h1 : b ∈ ks <;> by_cases h2 : b = a <;>
          simp [h1, h2, List.mem_append]
      rw [hkeys, List.append_assoc, List.singleton_append]
      refine List.map_congr_left fun k hk => ?_
      rcases List.mem_append.mp hk with hks | hrest
      · have hka : k ≠ a := fun h => ha (h ▸ hks)
        have hbeq : (a == k) = false := by simpa using Ne.symm hka
        simp [hks, hka, List.mem_append, List.count_cons, hbeq]
      · rcases List.mem_cons.mp hrest with hka | hflt
        · subst hka
          simp only [List.mem_append, List.mem_singleton, List.count_cons,
            beq_self_eq_true, if_true, reduceIte]
          simp [ha]
          omega
        · have hkout : k ∉ ks ++ [a] := by simpa using (List.mem_filter.mp hflt).2
          rw [List.mem_append, List.mem_singleton] at hkout
          push_neg at hkout
          have hbeq : (a == k) = false := by simpa using Ne.symm hkout.2
          simp [hkout.1, hkout.2, List.mem_append, List.count_cons, hbeq]

theorem countsBy_eq (l : List String) :
    countsBy l = (firstSeen l).map (fun k => (k, l.count k)) := by
  have h := foldl_bump_eq l [] (fun _ => 0) List.nodup_nil
  simpa [countsBy] using h

/-! ## Concrete data used in examples and witnesses -/

/-- A raw event with only the fields the aggregations read varying. -/
def mkEvent (uid act : String) (susp : Bool) : Event :=
  { timestamp := "2025-01-01T00:00:00Z", user_id := uid, action := act
    table_name := "meter_readings", is_suspicious := susp }

/-- Batch realising the spec's timeline scenario
`is_suspicious = [true, false, true]`. -/
def timelineExample : List Event :=
  [mkEvent "u1" "read" true, mkEvent "u2" "write" false, mkEvent "u3" "read" true]

/-- Batch realising the spec's user-activity scenario: `user_id` sequence
`[A, B, A, C, B, D, E, F]`. -/
def activityExample : List Event :=
  [mkEvent "A" "read" false, mkEvent "B" "read" false, mkEvent "A" "write" false,
   mkEvent "C" "read" false, mkEvent "B" "delete" false, mkEvent "D" "read" false,
   mkEvent "E" "read" false, mkEvent "F" "read" false]

/-- Concrete ROC payload for the C5 witness. -/
def sampleROC : ROCData :=
  { fpr := [0, 1/2, 1], tpr := [0, 9/10, 1], thresholds := [1, 1/2, 0]
    auc := 0.97 }

/-! ## Claim theorems -/

/-- C1: for every input sequence of raw events the enrichment fan-out of
`fetchEventsWithPredictions` returns a sequence of the same length in the
same index order, where position `i` holds the input event merged with its
prediction verdict when the `i`-th request succeeded and the original
unenriched event otherwise; the complete per-index characterisation means
no event is dropped and none is duplicated, whichever requests fail. -/
theorem fetchEventsWithPredictions_preserves_batch (rawEvents : List Event)
    (predict : Nat → Option MLPrediction) :
    (fetchEventsWithPredictions rawEvents predict).length = rawEvents.length ∧
    ∀ i : Nat, (fetchEventsWithPredictions rawEvents predict)[i]? =
      (rawEvents[i]?).map (fun event =>
        match predict i with
        | some p => { event with ml_prediction := some p }
        | none => event) := by
  constructor
  · exact length_mapWithIndex _ 0 rawEvents
  · intro i
    simpa using getElem?_mapWithIndex _ 0 rawEvents i

/-- C7: `processTimeline` produces exactly one point per event, in input
order, with `threats = 1, normal = 0` for a suspicious event and
`threats = 0, normal = 1` otherwise; on `is_suspicious = [true, false,
true]` it yields `[{1,0}, {0,1}, {1,0}]`. -/
theorem processTimeline_one_point_per_event :
    (∀ events : List Event,
      (processTimeline events).length = events.length ∧
      ∀ i : Nat, (processTimeline events)[i]? =
        (events[i]?).map (fun event =>
          { time := "T" ++ toString (i + 1)
            threats := if event.is_suspicious then 1 else 0
            normal := if event.is_suspicious then 0 else 1 })) ∧
    processTimeline timelineExample =
      [{ time := "T1", threats := 1, normal := 0 },
       { time := "T2", threats := 0, normal := 1 },
       { time := "T3", threats := 1, normal := 0 }] := by
  constructor
  · intro events
    refine ⟨length_mapWithIndex _ 0 events, fun i => ?_⟩
    simpa using getElem?_mapWithIndex _ 0 events i
  · rfl

/-- C5: for equal-length `fpr`, `tpr`, `thresholds` arrays the ROC shaping
produces one point per index, point `i` being
`(fpr[i], tpr[i], thresholds[i])`, and the reference diagonal alongside it
is exactly the two points `(0,0), (1,1)` independent of the input. -/
theorem chartData_zips_roc_arrays (d : ROCData)
    (h1 : d.tpr.length = d.fpr.length) (h2 : d.thresholds.length = d.fpr.length) :
    (chartData d).length = d.fpr.length ∧
    (∀ i (hf : i < d.fpr.length) (ht : i < d.tpr.length)
        (hth : i < d.thresholds.length),
      (chartData d)[i]? =
        some { fpr := d.fpr.get ⟨i, hf⟩
               tpr := d.tpr.get ⟨i, ht⟩
               threshold := d.thresholds.get ⟨i, hth⟩ }) ∧
    referenceData = [{ fpr := 0, tpr := 0 }, { fpr := 1, tpr := 1 }] := by
  refine ⟨length_mapWithIndex _ 0 d.fpr, fun i hf ht hth => ?_, rfl⟩
  have h := getElem?_mapWithIndex (fun idx f =>
    ({ fpr := f, tpr := d.tpr.getD idx 0,
       threshold := d.thresholds.getD idx 0 } : ROCPoint)) 0 d.fpr i
  simp only [chartData, h, Nat.zero_add]
  rw [List.getElem?_eq_getElem hf]
  simp [List.getD_eq_getElem?_getD, List.getElem?_eq_getElem, ht, hth]

/-- Witness for C5: on a concrete equal-length ROC payload, point 1 of
the shaped series is `(fpr[1], tpr[1], thresholds[1])`. -/
theorem chartData_zips_roc_arrays_witness :
    (chartData sampleROC).length = 3 ∧
    (chartData sampleROC)[1]? =
      some { fpr := 1/2, tpr := 9/10, threshold := 1/2 } := by
  have h := chartData_zips_roc_arrays sampleROC rfl rfl
  refine ⟨h.1, ?_⟩
  have h2 := h.2.1 1 (by decide) (by decide) (by decide)
  exact h2.trans (by norm_num [sampleROC])

/-- C4: the user-activity aggregation returns at most 5 points, and its
content is exactly the first 5 distinct `user_id`s in encounter order
(not sorted by count), each paired with the total count of that user's
events in the whole batch, usernames truncated to 15 characters; on the
`user_id` sequence `[A, B, A, C, B, D, E, F]` it yields
`[A:2, B:2, C:1, D:1, E:1]`. -/
theorem processUserActivity_first_seen_top5 :
    (∀ events : List Event,
      processUserActivity events = specUserActivity events ∧
      (processUserActivity events).length ≤ 5) ∧
    processUserActivity activityExample =
      [{ user := "A", actions := 2 }, { user := "B", actions := 2 },
       { user := "C", actions := 1 }, { user := "D", actions := 1 },
       { user := "E", actions := 1 }] := by
  constructor
  · intro events
    constructor
    · unfold processUserActivity specUserActivity
      rw [countsBy_eq, ← List.map_take, List.map_map]
      rfl
    · unfold processUserActivity
      simp only [List.length_map, List.length_take]
      omega
  · decide

/-- C6: the AUC bucket map of `getAUCColor` is boundary-exact: green iff
`auc ≥ 0.95`, blue iff `0.90 ≤ auc < 0.95`, orange iff
`0.80 ≤ auc < 0.90`, red otherwise; in particular `0.95 ↦ green`,
`0.9499 ↦ blue`, `0.8999 ↦ orange`, `0.79 ↦ red`. -/
theorem getAUCColor_boundary_exact :
    (∀ auc : Rat,
      (getAUCColor auc = "green" ↔ 0.95 ≤ auc) ∧
      (getAUCColor auc = "blue" ↔ 0.90 ≤ auc ∧ auc < 0.95) ∧
      (getAUCColor auc = "orange" ↔ 0.80 ≤ auc ∧ auc < 0.90) ∧
      (getAUCColor auc = "red" ↔ auc < 0.80)) ∧
    getAUCColor 0.95 = "green" ∧ getAUCColor 0.9499 = "blue" ∧
    getAUCColor 0.8999 = "orange" ∧ getAUCColor 0.79 = "red" := by
  refine ⟨fun auc => ?_, by norm_num [getAUCColor], by norm_num [getAUCColor],
    by norm_num [getAUCColor], by norm_num [getAUCColor]⟩
  unfold getAUCColor
  split_ifs with h1 h2 h3
  · exact ⟨iff_of_true rfl h1,
      iff_of_false (by decide) (by rintro ⟨-, hb⟩; linarith),
      iff_of_false (by decide) (by rintro ⟨-, hb⟩; linarith),
      iff_of_false (by decide) (by intro hb; linarith)⟩
  · exact ⟨iff_of_false (by decide) h1,
      iff_of_true rfl ⟨h2, not_le.mp h1⟩,
      iff_of_false (by decide) (by rintro ⟨-, hb⟩; linarith),
      iff_of_false (by decide) (by intro hb; linarith)⟩
  · exact ⟨iff_of_false (by decide) h1,
      iff_of_false (by decide) (by rintro ⟨ha, -⟩; exact h2 ha),
      iff_of_true rfl ⟨h3, not_le.mp h2⟩,
      iff_of_false (by decide) (by intro hb; linarith)⟩
  · exact ⟨iff_of_false (by decide) h1,
      iff_of_false (by decide) (by rintro ⟨ha, -⟩; exact h2 ha),
      iff_of_false (by decide) (by rintro ⟨ha, -⟩; exact h3 ha),
      iff_of_true rfl (not_le.mp h3)⟩

/-- C2: the alert decision `hasNosyAdmins` is true iff the `nosy_admins`
mapping is non-empty, whatever its contents, and the decision never reads
the accompanying `threshold` (nor `total_admin_reads`). -/
theorem hasNosyAdmins_iff_nonempty :
    (∀ d : NosyAdminData, hasNosyAdmins (some d) = true ↔ d.nosy_admins ≠ []) ∧
    (∀ (m : List (String × Nat)) (t t' reads reads' : Nat),
      hasNosyAdmins (some (NosyAdminData.mk m t reads)) =
      hasNosyAdmins (some (NosyAdminData.mk m t' reads'))) := by
  constructor
  · intro d
    simp [hasNosyAdmins, List.length_pos]
  · intro m t t' reads reads'
    rfl

/-- Concrete nosy-admin payload whose single entry is at or below the
threshold. -/
def nosyAdminsBelowThreshold : NosyAdminData :=
  { nosy_admins := [("admin1", 3)], threshold := 10, total_admin_reads := 3 }

/-- C3, counterexample: on a mapping whose only entry (count 3) does not
exceed the threshold (10) the code's alert decision is true while the
spec's data-model alert state `exists u, counter[u] > threshold` is false,
so the decision does not equal the existential threshold comparison. -/
theorem alertState_claim_counterexample :
    hasNosyAdmins (some nosyAdminsBelowThreshold) = true ∧
    ¬ alertStateSpec nosyAdminsBelowThreshold := by
  exact ⟨rfl, by decide⟩

/-- C3, amended: the alert state computed from the admin-read counter
payload holds iff some admin appears in the mapping at all — presence,
not a per-entry comparison with the threshold. -/
theorem hasNosyAdmins_presence_based (d : NosyAdminData) :
    hasNosyAdmins (some d) = true ↔ ∃ p, p ∈ d.nosy_admins := by
  simp [hasNosyAdmins, List.length_pos_iff_exists_mem]

/-- Sample payloads for the dashboard summary witnesses. -/
def sampleTest : TestData :=
  { message := "Backend connected successfully!"
    data := { total_events := 1000, anomalies := 50, accuracy := 0.95 } }

/-- Sample health payload. -/
def sampleHealth : HealthData := { status := "healthy", api := "running" }

/-- Sample nosy-admin payload. -/
def sampleNosy : NosyAdminData :=
  { nosy_admins := [], threshold := 10, total_admin_reads := 0 }

/-- C8: if any of the three primary summary fetches (test/health/admin)
fails — in particular `/health` failing while `/api/test` succeeds — the
combined `fetchData` cycle takes the error branch and the dashboard
renders the connection-error state, not the ready state. -/
theorem fetchData_requires_all_sources (st : DashboardState)
    (test : Except Unit TestData) (health : Except Unit HealthData)
    (nosyAdmin : Except Unit NosyAdminData)
    (hfail : test.isOk = false ∨ health.isOk = false ∨ nosyAdmin.isOk = false) :
    renderDashboard (fetchData st test health nosyAdmin) = .connectionError ∧
    renderDashboard (fetchData st test health nosyAdmin) ≠ .ready := by
  cases test <;> cases health <;> cases nosyAdmin <;>
    simp_all [fetchData, renderDashboard, Except.isOk, Except.toBool]

/-- Witness for C8: a concrete cycle where `/api/test` succeeds and
`/health` fails ends in the connection-error view. -/
theorem fetchData_requires_all_sources_witness :
    renderDashboard (fetchData initialDashboardState (.ok sampleTest)
      (.error ()) (.ok sampleNosy)) = .connectionError :=
  (fetchData_requires_all_sources initialDashboardState (.ok sampleTest)
    (.error ()) (.ok sampleNosy) (Or.inr (Or.inl rfl))).1

/-- C9: each fetch cycle is snapshot-atomic. A successful chart cycle
replaces the chart snapshot wholesale with a value derived from the new
payload only; a failed chart cycle leaves the stored snapshot exactly as
it was. A successful summary cycle replaces all three summary snapshots
with the new payloads (inheriting nothing but the untouched `error`
field); a failed summary cycle leaves all three summary snapshots
unchanged. -/
theorem snapshot_atomicity :
    (∀ (st : Option ChartData) (payload : LiveEventsPayload),
      fetchChartData st (.ok payload) = some (deriveCharts payload)) ∧
    (∀ st : Option ChartData, fetchChartData st (.error ()) = st) ∧
    (∀ (st : DashboardState) (t : TestData) (h : HealthData) (n : NosyAdminData),
      fetchData st (.ok t) (.ok h) (.ok n) =
        DashboardState.mk (some t) (some h) (some n) false st.error) ∧
    (∀ (st : DashboardState) (test : Except Unit TestData)
        (health : Except Unit HealthData) (nosyAdmin : Except Unit NosyAdminData),
      (test.isOk = false ∨ health.isOk = false ∨ nosyAdmin.isOk = false) →
      (fetchData st test health nosyAdmin).testData = st.testData ∧
      (fetchData st test health nosyAdmin).healthData = st.healthData ∧
      (fetchData st test health nosyAdmin).nosyAdmins = st.nosyAdmins) := by
  refine ⟨fun st payload => rfl, fun st => rfl, fun st t h n => rfl,
    fun st test health nosyAdmin hfail => ?_⟩
  cases test <;> cases health <;> cases nosyAdmin <;>
    simp_all [fetchData, Except.isOk, Except.toBool]

/-- Witness for C9: a concrete failed summary cycle leaves the stored
summary snapshots unchanged. -/
theorem snapshot_atomicity_witness :
    (fetchData initialDashboardState (.error ()) (.error ())
      (.error ())).testData = none := by
  have h := (snapshot_atomicity.2.2.2 initialDashboardState (.error ())
    (.error ()) (.error ()) (Or.inl rfl)).1
  simpa [initialDashboardState] using h

/-- C10: the connection-error state is sticky. The success path of
`fetchData` writes the data and loading fields but leaves `error` exactly
as it was, and whenever `error` is already set, a cycle of any outcome
leaves it set and the dashboard keeps rendering the connection-error
view; no fetch cycle can clear it. -/
theorem connection_error_is_sticky :
    (∀ (st : DashboardState) (t : TestData) (h : HealthData) (n : NosyAdminData),
      (fetchData st (.ok t) (.ok h) (.ok n)).error = st.error) ∧
    (∀ (st : DashboardState) (test : Except Unit TestData)
        (health : Except Unit HealthData) (nosyAdmin : Except Unit NosyAdminData),
      st.error.isSome = true →
      (fetchData st test health nosyAdmin).error.isSome = true ∧
      renderDashboard (fetchData st test health nosyAdmin) = .connectionError) := by
  refine ⟨fun st t h n => rfl, fun st test health nosyAdmin herr => ?_⟩
  cases test <;> cases health <;> cases nosyAdmin <;>
    simp_all [fetchData, renderDashboard]

/-- A dashboard state that has already entered the connection-error
state. -/
def erroredState : DashboardState :=
  { testData := none, healthData := none, nosyAdmins := none
    loading := false, error := some "Failed to connect to backend" }

/-- Witness for C10: after an error, a cycle in which all three primary
sources succeed still renders the connection-error view. -/
theorem connection_error_is_sticky_witness :
    renderDashboard (fetchData erroredState (.ok sampleTest)
      (.ok sampleHealth) (.ok sampleNosy)) = .connectionError :=
  (connection_error_is_sticky.2 erroredState (.ok sampleTest)
    (.ok sampleHealth) (.ok sampleNosy) rfl).2
